import Mathlib

/-!
Verification of the swarm_test message-delivery and session-control pipeline.

The Rust sources are shallowly embedded: strings are manipulated through
executable helpers over `List Char` (so that every definition reduces in the
kernel), fallible code returns `Option` or `Except`, and the filesystem state
of the message queue is threaded explicitly.
-/

set_option autoImplicit false

/-! ## String helpers (executable models of the Rust `str` operations used) -/

/-- True when `p` is a prefix of `l` (model of byte-wise prefix testing). -/
def isPrefixChars : List Char → List Char → Bool
  | [], _ => true
  | _ :: _, [] => false
  | p :: ps, c :: cs => p == c && isPrefixChars ps cs

/-- True when `pat` occurs as a contiguous run somewhere in `l`
(model of Rust `str::contains` for a literal pattern). -/
def substrSearch (pat : List Char) : List Char → Bool
  | [] => isPrefixChars pat []
  | c :: cs => isPrefixChars pat (c :: cs) || substrSearch pat cs

/-- Model of Rust `str::contains` with a nonempty literal pattern. -/
def strContains (s pat : String) : Bool :=
  substrSearch pat.data s.data

/-- ASCII digit test, as Rust `char::is_ascii_digit`. -/
def isDigitCh (c : Char) : Bool :=
  48 ≤ c.toNat && c.toNat ≤ 57

/-- Whitespace test covering the characters relevant to the embedded code. -/
def isWsChar (c : Char) : Bool :=
  c == '\x20' || c == '\x09' || c == '\x0a' || c == '\x0d'

/-- Model of Rust `str::trim` (both ends). -/
def trimChars (l : List Char) : List Char :=
  ((l.dropWhile isWsChar).reverse.dropWhile isWsChar).reverse

/-- Split a character list at newline characters, keeping empty segments. -/
def splitNl : List Char → List (List Char)
  | [] => [[]]
  | c :: cs =>
    match splitNl cs with
    | [] => [[]]
    | l :: ls => if c == '\x0a' then [] :: l :: ls else (c :: l) :: ls

/-- Drop one trailing carriage return, as each line of Rust `str::lines` does. -/
def stripTrailingCr (l : List Char) : List Char :=
  match l.reverse with
  | '\x0d' :: rest => rest.reverse
  | _ => l

/-- Drop the final segment when it is empty: Rust `str::lines` never yields a
trailing empty line for input ending in a newline. -/
def dropLastEmpty (ls : List (List Char)) : List (List Char) :=
  match ls.reverse with
  | [] :: rest => rest.reverse
  | _ => ls

/-- Model of Rust `str::lines`. -/
def rustLines (s : String) : List String :=
  ((dropLastEmpty (splitNl s.data)).map stripTrailingCr).map String.mk

/-- Join character lists with a separator (model of `Vec::join`). -/
def joinWith (sep : List Char) : List (List Char) → List Char
  | [] => []
  | [l] => l
  | l :: l2 :: ls => l ++ sep ++ joinWith sep (l2 :: ls)

/-- Join strings with a newline then trim, the common tail of the Rust
`lines().filter(...).collect::<Vec<_>>().join("\n").trim()` pipelines. -/
def joinNlTrim (ls : List String) : String :=
  String.mk (trimChars (joinWith ['\x0a'] (ls.map String.data)))

/-- One pass of Rust `str::replace`: non-overlapping left-to-right replacement,
with fuel bounding the recursion (the fuel is always sufficient because every
step consumes at least one character of a nonempty pattern). -/
def replaceAux (pat rep : List Char) : Nat → List Char → List Char
  | 0, cs => cs
  | _ + 1, [] => []
  | fuel + 1, c :: cs =>
    if isPrefixChars pat (c :: cs) then
      rep ++ replaceAux pat rep fuel ((c :: cs).drop pat.length)
    else
      c :: replaceAux pat rep fuel cs

/-- Model of Rust `str::replace` for a nonempty literal pattern. -/
def strReplace (s pat rep : String) : String :=
  if pat.data.isEmpty then s
  else String.mk (replaceAux pat.data rep.data s.data.length s.data)

/-- Model of Rust `str::split_whitespace`: split on whitespace runs and drop
empty pieces. -/
def splitWs (s : String) : List String :=
  ((s.data.splitOnP isWsChar).filter (fun l => !l.isEmpty)).map String.mk

/-- Digits to a number, most significant first (model of `str::parse::<u64>`
on an all-digit string, ignoring the width bound which the callers maintain). -/
def digitsToNat : List Char → Nat
  | [] => 0
  | c :: cs => digitsToNat cs + (c.toNat - 48) * 10 ^ cs.length

/-! ## Terminal Control Client: error taxonomy and output classification
(src/src/error.rs, src/src/types.rs, src/src/tmux/cli.rs) -/

/-- Stand-in for `std::io::ErrorKind` (only carried around, never inspected). -/
inductive IoErrorKind where
  | wouldBlock
  | unsupported
  | other
  deriving DecidableEq, Repr

/-- `TmuxError` from src/src/error.rs. -/
inductive TmuxError where
  | Process (kind : IoErrorKind) (msg : String)
  | Parse (msg : String)
  | Command (msg : String)
  | NotFound (target : String)
  | InvalidState (msg : String)
  | Timeout
  | NotConnected
  deriving DecidableEq, Repr

/-- `ResponseData` from src/src/types.rs (entity payload variants are not
exercised by `parse_output`, which only builds `Empty` and `Output`). -/
inductive ResponseData where
  | Empty
  | Output (text : String)
  deriving DecidableEq, Repr

/-- `Response` from src/src/types.rs. -/
structure Response where
  success : Bool
  data : ResponseData
  error : Option String
  deriving DecidableEq, Repr

/-- The observable outcome of a finished subprocess: exit status plus the
captured stdout and stderr, already decoded to text. -/
structure ProcOutput where
  statusSuccess : Bool
  stdout : String
  stderr : String
  deriving DecidableEq, Repr

namespace TmuxCommand

/-- The error text `parse_output` classifies: stderr when non-empty, else
stdout (src/src/tmux/cli.rs lines 118-122). -/
def errText (o : ProcOutput) : String :=
  if o.stderr == "" then o.stdout else o.stderr

/-- `TmuxCommand::parse_output` from src/src/tmux/cli.rs lines 113-142. -/
def parse_output (o : ProcOutput) : Except TmuxError Response :=
  if !o.statusSuccess then
    let errorMsg := errText o
    if strContains errorMsg "not found" || strContains errorMsg "no such" then
      .error (.NotFound errorMsg)
    else if strContains errorMsg "not connected" || strContains errorMsg "no server running" then
      .error .NotConnected
    else
      .error (.Command errorMsg)
  else
    .ok { success := true
          data := if o.stdout == "" then .Empty else .Output o.stdout
          error := none }

end TmuxCommand

/-! ## Agent Output Parser: data model
(src/src/opencode/protocol.rs, src/src/messaging/parser.rs) -/

/-- `MessageType` from src/src/opencode/protocol.rs. -/
inductive MessageType where
  | Message
  | ToolCall
  | Error
  | Completion
  deriving DecidableEq, Repr

/-- `ToolCall` from src/src/opencode/protocol.rs; the Rust
`HashMap<String, String>` is modelled as a key-unique association list in
insertion order (no claim inspects argument-map ordering). -/
structure ToolCall where
  tool_name : String
  arguments : List (String × String)
  deriving DecidableEq, Repr

/-- `AgentResponse` from src/src/opencode/protocol.rs. -/
structure AgentResponse where
  success : Bool
  message_type : MessageType
  content : String
  tool_calls : List ToolCall
  error : Option String
  deriving DecidableEq, Repr

/-- Upsert into the association-list model of `HashMap::insert`. -/
def mapUpsert (m : List (String × String)) (k v : String) : List (String × String) :=
  if m.any (fun p => p.1 == k) then
    m.map (fun p => if p.1 == k then (k, v) else p)
  else m ++ [(k, v)]

/-- Character index of the first occurrence of `pat`
(model of Rust `str::find` for a literal pattern; inputs are treated at
character granularity). -/
def findIdx (pat : List Char) : List Char → Option Nat
  | [] => if isPrefixChars pat [] then some 0 else none
  | c :: cs =>
    if isPrefixChars pat (c :: cs) then some 0
    else (findIdx pat cs).map (· + 1)

/-- Model of Rust `str::split_once('=')`. -/
def splitOnceEq (s : String) : Option (String × String) :=
  match findIdx ['='] s.data with
  | none => none
  | some i => some (String.mk (s.data.take i), String.mk (s.data.drop (i + 1)))

/-- Model of Rust `str::trim_matches('"')`: strip every leading and trailing
double quote. -/
def trimQuotes (s : String) : String :=
  String.mk (((s.data.dropWhile (· == '"')).reverse.dropWhile (· == '"')).reverse)

namespace OutputParser

/-- `OutputParser::is_error` (src/src/messaging/parser.rs lines 151-153). -/
def is_error (output : String) : Bool :=
  strContains output "<error>" || strContains output "Error:" || strContains output "error:"

/-- `OutputParser::is_tool_call` (lines 155-157). -/
def is_tool_call (output : String) : Bool :=
  strContains output "Running:" || strContains output "<tool_call>"

/-- `OutputParser::is_completion` (lines 159-161). -/
def is_completion (output : String) : Bool :=
  strContains output "<complete>" || strContains output "I\x27ll complete" ||
    strContains output "Done."

/-- `OutputParser::strip_error_tags` (lines 205-215). -/
def strip_error_tags (output : String) : String :=
  joinNlTrim ((rustLines (strReplace (strReplace output "<error>" "") "</error>" "")).filter
    (fun line => !strContains line "Error:" && !strContains line "error:"))

/-- `OutputParser::extract_error_message` (lines 217-225). -/
def extract_error_message (output : String) : String :=
  joinNlTrim ((rustLines output).filter
    (fun line => strContains line "Error:" || strContains line "error:"))

/-- `OutputParser::extract_command_line` (lines 111-122). -/
def extract_command_line (command : String) : Option (String × List String) :=
  match splitWs command with
  | [] => none
  | cmd :: args => some (cmd, args)

/-- `OutputParser::parse_xml_tool_call` (lines 254-274). The outer `Option`
models divergence: when the first closing tag precedes the end of the first
opening tag, the Rust slice `&line[name_start + 11..name_end]` has an invalid
range and the function panics, modelled as `none`. The inner `Option` is the
Rust return value. -/
def parse_xml_tool_call (line : String) : Option (Option ToolCall) :=
  match findIdx "<tool_call>".data line.data with
  | none => some none
  | some nameStart =>
    match findIdx "</tool_call>".data line.data with
    | none => some none
    | some nameEnd =>
      if nameEnd < nameStart + 11 then none
      else
        let content := (line.data.drop (nameStart + 11)).take (nameEnd - (nameStart + 11))
        match splitWs (String.mk content) with
        | [] => some none
        | toolName :: rest =>
          let args := rest.foldl (fun acc part =>
            match splitOnceEq part with
            | some (k, v) => mapUpsert acc k (trimQuotes v)
            | none => acc) []
          some (some ⟨toolName, args⟩)

/-- The per-line loop of `OutputParser::extract_tool_calls_from_output`
(lines 227-252); `none` propagates the `parse_xml_tool_call` panic. -/
def collectToolCalls : List String → Option (List ToolCall)
  | [] => some []
  | line :: rest =>
    let fromRunning : List ToolCall :=
      if isPrefixChars "Running: ".data line.data then
        match extract_command_line (String.mk (line.data.drop 9)) with
        | some (toolName, args) =>
          [⟨toolName,
            mapUpsert (mapUpsert [] "raw_args" (String.mk (joinWith ['\x20'] (args.map String.data))))
              "command" (String.mk (line.data.drop 9))⟩]
        | none => []
      else []
    match (if strContains line "<tool_call>" then parse_xml_tool_call line else some none) with
    | none => none
    | some fromXml =>
      match collectToolCalls rest with
      | none => none
      | some tail =>
        some (fromRunning ++ (match fromXml with | some c => [c] | none => []) ++ tail)

/-- `OutputParser::extract_tool_calls_from_output` (lines 227-252). -/
def extract_tool_calls_from_output (output : String) : Option (List ToolCall) :=
  collectToolCalls (rustLines output)

/-- `OutputParser::extract_content_from_tool_output` (lines 276-284). -/
def extract_content_from_tool_output (output : String) : String :=
  joinNlTrim ((rustLines output).filter
    (fun line => !isPrefixChars "Running:".data line.data &&
      !isPrefixChars "<tool_call>".data line.data))

/-- `OutputParser::strip_completion_tags` (lines 286-296). -/
def strip_completion_tags (output : String) : String :=
  joinNlTrim ((rustLines (strReplace (strReplace output "<complete>" "") "</complete>" "")).filter
    (fun line => !strContains line "I\x27ll complete" && !strContains line "Done."))

/-- `OutputParser::parse_error` (lines 163-171). -/
def parse_error (output : String) : AgentResponse :=
  { success := false
    message_type := .Error
    content := strip_error_tags output
    tool_calls := []
    error := some (extract_error_message output) }

/-- `OutputParser::parse_tool_call` (lines 173-183); `none` models the panic
reachable through `parse_xml_tool_call`. -/
def parse_tool_call (output : String) : Option AgentResponse :=
  (extract_tool_calls_from_output output).map (fun toolCalls =>
    { success := true
      message_type := .ToolCall
      content := extract_content_from_tool_output output
      tool_calls := toolCalls
      error := none })

/-- `OutputParser::parse_completion` (lines 185-193). -/
def parse_completion (output : String) : AgentResponse :=
  { success := true
    message_type := .Completion
    content := strip_completion_tags output
    tool_calls := []
    error := none }

/-- `OutputParser::parse_message` (lines 195-203). -/
def parse_message (output : String) : AgentResponse :=
  { success := true
    message_type := .Message
    content := output
    tool_calls := []
    error := none }

/-- `OutputParser::parse_agent_output` (lines 8-22). The Rust function returns
`Result<AgentResponse>` and never constructs `Err`; the only way it can fail
to produce a response is the slice panic inside `parse_xml_tool_call`,
modelled by `none`. -/
def parse_agent_output (output : String) : Option AgentResponse :=
  if is_error output then some (parse_error output)
  else if is_tool_call output then parse_tool_call output
  else if is_completion output then some (parse_completion output)
  else some (parse_message output)

/-- The classification produced by `parse_agent_output`, when it returns. -/
def classify (output : String) : Option MessageType :=
  (parse_agent_output output).map (fun r => r.message_type)

end OutputParser

/-! ## Timestamp extraction (src/src/messaging/parser.rs lines 124-149)

The three `regex_lite` patterns are embedded as explicit leftmost scanners, and
chrono `DateTime::parse_from_rfc3339` (an external library call) is modelled by
a structural RFC 3339 reader. -/

/-- Read one ASCII digit. -/
def parseDigitCh : List Char → Option (Nat × List Char)
  | [] => none
  | c :: cs => if isDigitCh c then some (c.toNat - 48, cs) else none

/-- Read exactly two ASCII digits. -/
def parse2Digits (cs : List Char) : Option (Nat × List Char) :=
  match parseDigitCh cs with
  | none => none
  | some (a, r) =>
    match parseDigitCh r with
    | none => none
    | some (b, r2) => some (10 * a + b, r2)

/-- Read exactly four ASCII digits. -/
def parse4Digits (cs : List Char) : Option (Nat × List Char) :=
  match parse2Digits cs with
  | none => none
  | some (a, r) =>
    match parse2Digits r with
    | none => none
    | some (b, r2) => some (100 * a + b, r2)

/-- Require a specific character. -/
def expectCh (c : Char) : List Char → Option (List Char)
  | [] => none
  | x :: xs => if x == c then some xs else none

/-- Skip an RFC 3339 fractional-second part (a dot followed by at least one
digit); anything else is left in place for the offset reader to reject. -/
def skipFraction (cs : List Char) : List Char :=
  match cs with
  | '.' :: rest =>
    if (rest.takeWhile isDigitCh).isEmpty then cs else rest.dropWhile isDigitCh
  | _ => cs

/-- Read an RFC 3339 numeric offset body `HH:MM` that must end the input. -/
def parseHmOffset (cs : List Char) : Option Nat :=
  match parse2Digits cs with
  | none => none
  | some (h, r) =>
    match expectCh ':' r with
    | none => none
    | some r2 =>
      match parse2Digits r2 with
      | none => none
      | some (mi, r3) =>
        if r3.isEmpty && h < 24 && mi < 60 then some (h * 3600 + mi * 60) else none

/-- Read an RFC 3339 timezone suffix: `Z` or `±HH:MM`, ending the input. -/
def parseTzOffset : List Char → Option Int
  | ['Z'] => some 0
  | '+' :: rest => (parseHmOffset rest).map (fun s => (s : Int))
  | '-' :: rest => (parseHmOffset rest).map (fun s => -(s : Int))
  | _ => none

/-- Days from 1970-01-01 of a proleptic Gregorian civil date
(standard days-from-civil computation, used for the epoch value). -/
def daysFromCivil (y m d : Int) : Int :=
  let y2 := if m ≤ 2 then y - 1 else y
  let era := (if 0 ≤ y2 then y2 else y2 - 399) / 400
  let yoe := y2 - era * 400
  let mp := (m + 9) % 12
  let doy := (153 * mp + 2) / 5 + d - 1
  let doe := yoe * 365 + yoe / 4 - yoe / 100 + doy
  era * 146097 + doe - 719468

/-- Model of chrono `DateTime::parse_from_rfc3339` followed by `.timestamp()`:
accepts only `YYYY-MM-DDTHH:MM:SS(.frac)?(Z|±HH:MM)` and returns Unix seconds
(UTC); every other shape — in particular anything not starting with a digit —
is rejected. -/
def rfc3339ToEpoch (cs : List Char) : Option Int := do
  let (y, r1) ← parse4Digits cs
  let r2 ← expectCh '-' r1
  let (mo, r3) ← parse2Digits r2
  let r4 ← expectCh '-' r3
  let (d, r5) ← parse2Digits r4
  let r6 ← expectCh 'T' r5
  let (h, r7) ← parse2Digits r6
  let r8 ← expectCh ':' r7
  let (mi, r9) ← parse2Digits r8
  let r10 ← expectCh ':' r9
  let (s, r11) ← parse2Digits r10
  let off ← parseTzOffset (skipFraction r11)
  if 1 ≤ mo ∧ mo ≤ 12 ∧ 1 ≤ d ∧ d ≤ 31 ∧ h < 24 ∧ mi < 60 ∧ s ≤ 60 then
    pure (86400 * daysFromCivil (Int.ofNat y) (Int.ofNat mo) (Int.ofNat d) +
      3600 * (h : Int) + 60 * (mi : Int) + (s : Int) - off)
  else none

/-- String-level entry point of the chrono model. -/
def parse_from_rfc3339 (s : String) : Option Int :=
  rfc3339ToEpoch s.data

/-- The `i64 as u64` cast applied by `dt.timestamp() as u64`. -/
def intAsU64 (t : Int) : Nat :=
  (t % (2 : Int) ^ 64).toNat

/-- Leftmost match of the pattern `\[(\d{4}-\d{2}-\d{2} \d{2}:\d{2}:\d{2})\]`
attempted at the head of the input; returns the matched text. -/
def tryIsoBracket : List Char → Option (List Char)
  | '[' :: a1 :: a2 :: a3 :: a4 :: '-' :: b1 :: b2 :: '-' :: c1 :: c2 :: '\x20' ::
      d1 :: d2 :: ':' :: e1 :: e2 :: ':' :: f1 :: f2 :: ']' :: _ =>
    if [a1, a2, a3, a4, b1, b2, c1, c2, d1, d2, e1, e2, f1, f2].all isDigitCh then
      some ['[', a1, a2, a3, a4, '-', b1, b2, '-', c1, c2, '\x20',
        d1, d2, ':', e1, e2, ':', f1, f2, ']']
    else none
  | _ => none

/-- The pattern `\[(\d{10})\]` attempted at the head of the input. -/
def tryBracket10 : List Char → Option (List Char)
  | '[' :: rest =>
    let ds := rest.take 10
    if ds.length == 10 && ds.all isDigitCh then
      match rest.drop 10 with
      | ']' :: _ => some ('[' :: ds ++ [']'])
      | _ => none
    else none
  | _ => none

/-- The pattern `T(\d{10})` attempted at the head of the input. -/
def tryT10 : List Char → Option (List Char)
  | 'T' :: rest =>
    let ds := rest.take 10
    if ds.length == 10 && ds.all isDigitCh then some ('T' :: ds) else none
  | _ => none

/-- `Regex::find`: try the pattern at every position, leftmost first. -/
def findFirst (t : List Char → Option (List Char)) : List Char → Option (List Char)
  | [] => t []
  | c :: cs =>
    match t (c :: cs) with
    | some m => some m
    | none => findFirst t cs

namespace OutputParser

/-- The per-match conversion of `OutputParser::parse_timestamp`: a match
containing a dash goes through the RFC 3339 parse of the match text plus `"Z"`,
any other match has its digits filtered out and parsed as `u64` (lines
135-144 of src/src/messaging/parser.rs). -/
def applyTsMatch (s : String) : Option Nat :=
  if strContains s "-" then
    match parse_from_rfc3339 (s ++ "Z") with
    | some t => some (intAsU64 t)
    | none => none
  else
    let digits := s.data.filter isDigitCh
    if digits.isEmpty then none
    else if digitsToNat digits < 2 ^ 64 then some (digitsToNat digits) else none

/-- The value contributed by one pattern of the loop: the conversion applied to
the leftmost match, if any. -/
def patternValue (t : List Char → Option (List Char)) (line : String) : Option Nat :=
  match findFirst t line.data with
  | some m => applyTsMatch (String.mk m)
  | none => none

/-- `OutputParser::parse_timestamp` (lines 124-149): the patterns are tried in
the source order — bracketed ISO date-time, bracketed 10 digits, `T` plus 10
digits — and a pattern whose conversion fails falls through to the next. -/
def parse_timestamp (line : String) : Option Nat :=
  match patternValue tryIsoBracket line with
  | some t => some t
  | none =>
    match patternValue tryBracket10 line with
    | some t => some t
    | none =>
      match patternValue tryT10 line with
      | some t => some t
      | none => none

end OutputParser

/-! ## Persistent Message Queue (src/src/messaging/queue.rs)

The queue directory is modelled as a list of named entries; the in-memory
`VecDeque` as a list with its front at the head. Serde round-tripping of a
well-formed `QueuedMessage` file is taken as faithful: a file written by the
queue parses back to the written value, any other content fails to parse. -/

/-- `Message` from src/src/types.rs; the `PaneId` newtype is embedded as the
raw string it wraps. -/
structure Message where
  id : String
  pane_id : String
  content : String
  timestamp : Nat
  deriving DecidableEq, Repr

/-- `QueuedMessage` from src/src/messaging/queue.rs lines 187-192. -/
structure QueuedMessage where
  message : Message
  queued_at : Nat
  retries : Nat
  deriving DecidableEq, Repr

/-- Contents of one queue-directory entry: either a file that parses as a
`QueuedMessage`, or anything else. -/
inductive FileData where
  | msg (q : QueuedMessage)
  | other (raw : String)
  deriving DecidableEq, Repr

/-- One directory entry. -/
structure DiskFile where
  name : String
  data : FileData
  deriving DecidableEq, Repr

/-- The mutable state of one `MessageQueue` instance: the in-memory queue and
the queue directory. -/
structure QueueState where
  memq : List QueuedMessage
  disk : List DiskFile
  deriving DecidableEq, Repr

/-- `QueueStats` from src/src/messaging/queue.rs lines 215-220. -/
structure QueueStats where
  pending : Nat
  queued : Nat
  failed : Nat
  deriving DecidableEq, Repr

/-- Split a character list at a separator character, keeping empty segments. -/
def splitOnCh (sep : Char) : List Char → List (List Char)
  | [] => [[]]
  | c :: cs =>
    match splitOnCh sep cs with
    | [] => [[]]
    | l :: ls => if c == sep then [] :: l :: ls else (c :: l) :: ls

/-- Model of Rust `Path::extension` on a plain file name: the part after the
last dot, absent when there is no dot or when the only dot leads a hidden
file name. -/
def rustExtension (name : String) : Option String :=
  let parts := splitOnCh '.' name.data
  if parts.length ≤ 1 then none
  else if parts.length == 2 && name.data.head? == some '.' then none
  else parts.getLast?.map String.mk

/-- The `path.extension().map(|e| e == "msg").unwrap_or(false)` test used by
`clear`, `retry_failed` and `stats`. -/
def isMsgFile (f : DiskFile) : Bool :=
  rustExtension f.name == some "msg"

/-- Opening a file with create+truncate and writing `d`: replace the entry if
the name exists, otherwise add it. -/
def writeFile (disk : List DiskFile) (name : String) (d : FileData) : List DiskFile :=
  if disk.any (fun f => f.name == name) then
    disk.map (fun f => if f.name == name then ⟨name, d⟩ else f)
  else disk ++ [⟨name, d⟩]

namespace MessageQueue

/-- `MessageQueue::message_file` (lines 41-43): queue-file name
`{session_id}-{message_id}.msg`, where the session id passed by
`enqueue_message` is the pane-id string of the message. -/
def message_file (session_id message_id : String) : String :=
  session_id ++ "-" ++ message_id ++ ".msg"

/-- `MessageQueue::enqueue_message` (lines 45-76): wrap with `retries = 0` and
the current time, write one file, push onto the back of the in-memory queue. -/
def enqueue_message (st : QueueState) (m : Message) (now : Nat) : QueueState :=
  let queued : QueuedMessage := { message := m, queued_at := now, retries := 0 }
  { memq := st.memq ++ [queued]
    disk := writeFile st.disk (message_file m.pane_id m.id) (.msg queued) }

/-- `MessageQueue::dequeue` (lines 122-125): pop the front of the in-memory
queue; the disk is untouched. -/
def dequeue (st : QueueState) : Option QueuedMessage × QueueState :=
  (st.memq.head?, { st with memq := st.memq.tail })

/-- `MessageQueue::clear` (lines 141-155): empty the in-memory queue and
remove every directory entry whose extension is `msg`. -/
def clear (st : QueueState) : QueueState :=
  { memq := []
    disk := st.disk.filter (fun f => !isMsgFile f) }

/-- The per-file test of `retry_failed` (lines 164-167): a `.msg` entry that
parses as a `QueuedMessage` with `retries < 3`. -/
def retriable? (f : DiskFile) : Option QueuedMessage :=
  if isMsgFile f then
    match f.data with
    | .msg q => if q.retries < 3 then some q else none
    | .other _ => none
  else none

/-- The rewrite applied by one `retry_failed` iteration to one file. -/
def bumpFile (f : DiskFile) : DiskFile :=
  match retriable? f with
  | some q => { name := f.name, data := .msg { q with retries := q.retries + 1 } }
  | none => f

/-- The directory loop of `MessageQueue::retry_failed` (lines 161-181):
returns the rewritten directory, the messages re-appended to the in-memory
queue in scan order, and the count. -/
def retryLoop : List DiskFile → List DiskFile × List QueuedMessage × Nat
  | [] => ([], [], 0)
  | f :: fs =>
    let r := retryLoop fs
    match retriable? f with
    | some q =>
      ({ name := f.name, data := .msg { q with retries := q.retries + 1 } } :: r.1,
       ({ q with retries := q.retries + 1 } :: r.2.1, r.2.2 + 1))
    | none => (f :: r.1, r.2)

/-- `MessageQueue::retry_failed` (lines 157-184). -/
def retry_failed (st : QueueState) : QueueState × Nat :=
  let r := retryLoop st.disk
  ({ memq := st.memq ++ r.2.1, disk := r.1 }, r.2.2)

/-- Iterated `retry_failed`, for the exclusion-from-every-subsequent-count
part of the retry-bound property. -/
def retryIter : Nat → QueueState → QueueState
  | 0, st => st
  | k + 1, st => retryIter k (retry_failed st).1

/-- A `.msg` entry that parses as a `QueuedMessage` (the `stats` read path,
lines 232-234). -/
def parsedMsg (f : DiskFile) : Option QueuedMessage :=
  if isMsgFile f then
    match f.data with
    | .msg q => some q
    | .other _ => none
  else none

/-- The directory entries `stats` counts as queued: parsed with `retries < 3`
(lines 235-239). -/
def queuedFiles (st : QueueState) : List DiskFile :=
  st.disk.filter (fun f =>
    match parsedMsg f with
    | some q => decide (q.retries < 3)
    | none => false)

/-- The directory entries `stats` counts as failed: parsed with
`retries >= 3`. -/
def failedFiles (st : QueueState) : List DiskFile :=
  st.disk.filter (fun f =>
    match parsedMsg f with
    | some q => decide (3 ≤ q.retries)
    | none => false)

/-- `MessageQueue::stats` (lines 223-250). -/
def stats (st : QueueState) : QueueStats :=
  { pending := st.memq.length
    queued := (queuedFiles st).length
    failed := (failedFiles st).length }

end MessageQueue

/-- Example queue state for witnesses: one retriable message file, one file at
the retry bound, one non-queue file, one malformed `.msg` file. -/
def qmsg1 : QueuedMessage :=
  { message := { id := "m1", pane_id := "s1:0.0", content := "hello", timestamp := 0 }
    queued_at := 10, retries := 1 }

/-- A queued message that has reached the retry bound. -/
def qmsg3 : QueuedMessage :=
  { message := { id := "m3", pane_id := "s1:0.0", content := "old", timestamp := 0 }
    queued_at := 5, retries := 3 }

/-- Queue file holding `qmsg1`. -/
def fileA : DiskFile := { name := "s1:0.0-m1.msg", data := .msg qmsg1 }

/-- Queue file holding `qmsg3`. -/
def fileB : DiskFile := { name := "s1:0.0-m3.msg", data := .msg qmsg3 }

/-- A file without the `msg` extension. -/
def fileC : DiskFile := { name := "readme.txt", data := .other "notes" }

/-- A `.msg` file whose contents do not parse as a `QueuedMessage`. -/
def fileD : DiskFile := { name := "junk.msg", data := .other "not json" }

/-- The example state. -/
def stExample : QueueState := { memq := [], disk := [fileA, fileB, fileC, fileD] }

/-! ## Delivery Router (src/src/opencode/sender.rs)

`send_prompt`/`send_message` are embedded with an explicit action trace so
that statements about which side effects occur (HTTP attempt, console notice,
live-session search, mapping upsert, key-send injection, mapping lookup) are
direct. -/

/-- Modelled from the spec: `MessageMode` is declared in src/src/config.rs,
which is not among the provided sources. §4.4 gives the mode set
{Auto, AgentOnly, TerminalOnly}; the first two variant names follow the uses
in src/src/opencode/sender.rs (`MessageMode::Auto`, `MessageMode::Opencode`). -/
inductive MessageMode where
  | Auto
  | Opencode
  | Terminal
  deriving DecidableEq, Repr

/-- One observable side effect of a delivery attempt. -/
inductive SenderAction where
  | httpPrompt (session_id prompt : String)
  | httpMessage (session_id message : String)
  | notice
  | searchSessions (name : String)
  | mapInsert (remote_id value : String)
  | sendKeys (pane keys : String)
  | mapLookup (remote_id : String)
  deriving DecidableEq, Repr

/-- The environment of one delivery attempt: whether the agent HTTP call
would succeed, and the live terminal sessions as (name, pane id) pairs. -/
structure SenderEnv where
  httpOk : Bool
  liveSessions : List (String × String)
  deriving DecidableEq, Repr

/-- `OpenCodeSender` state: the optional HTTP client and the Session Identity
Map table (remote id to stored value, key-unique, as the
`SessionMappingStore` `HashMap` of src/src/session_mapping.rs). -/
structure SenderState where
  opencodeClient : Option Unit
  mappings : List (String × String)
  deriving DecidableEq, Repr

/-- Modelled from the spec: `find_pane_by_session_name` is called by
src/src/opencode/sender.rs lines 108 and 144 but its definition is not among
the provided sources; per §4.4 the terminal fallback resolves the destination
"by searching live terminal sessions for a name match". -/
def find_pane_by_session_name (env : SenderEnv) (name : String) :
    Except TmuxError String :=
  match env.liveSessions.find? (fun p => p.1 == name) with
  | some p => .ok p.2
  | none => .error (.NotFound ("Session not found: " ++ name))

/-- The shared fallback tail of `send_prompt`/`send_message` (lines 107-112
and 143-148): search the live sessions, and on success upsert the mapping
(remote id to the found pane id, via `SessionMappingStore::insert`, whose
save-to-disk step is modelled as succeeding). -/
def fallbackTail (env : SenderEnv) (st : SenderState) (session_id : String) :
    SenderState × List SenderAction :=
  match find_pane_by_session_name env session_id with
  | .ok pane_id =>
    ({ st with mappings := mapUpsert st.mappings session_id pane_id },
     [.searchSessions session_id, .mapInsert session_id pane_id])
  | .error _ => (st, [.searchSessions session_id])

namespace OpenCodeSender

/-- `OpenCodeSender::send_prompt` (src/src/opencode/sender.rs lines 81-113):
when the mode permits and a client is configured, try the HTTP prompt call and
return `Ok(true)` on success; otherwise print the fallback notice (under
`Auto` only), search the live sessions, record the mapping if found, and
return `Ok(false)`. -/
def send_prompt (env : SenderEnv) (st : SenderState) (session_id : String)
    (mode : MessageMode) (prompt : String) :
    Except TmuxError Bool × SenderState × List SenderAction :=
  let attempted := (mode == .Auto || mode == .Opencode) && st.opencodeClient.isSome
  let pre : List SenderAction :=
    if attempted then [.httpPrompt session_id prompt] else []
  if attempted && env.httpOk then
    (.ok true, st, pre)
  else
    let notices : List SenderAction := if mode == .Auto then [.notice] else []
    let fb := fallbackTail env st session_id
    (.ok false, fb.1, pre ++ notices ++ fb.2)

/-- `OpenCodeSender::send_message` (lines 117-149): identical to `send_prompt`
but through the message API. -/
def send_message (env : SenderEnv) (st : SenderState) (session_id : String)
    (mode : MessageMode) (message : String) :
    Except TmuxError Bool × SenderState × List SenderAction :=
  let attempted := (mode == .Auto || mode == .Opencode) && st.opencodeClient.isSome
  let pre : List SenderAction :=
    if attempted then [.httpMessage session_id message] else []
  if attempted && env.httpOk then
    (.ok true, st, pre)
  else
    let notices : List SenderAction := if mode == .Auto then [.notice] else []
    let fb := fallbackTail env st session_id
    (.ok false, fb.1, pre ++ notices ++ fb.2)

end OpenCodeSender

/-- Claim C5: `parse_output` classifies a non-zero exit by substring matching on
the error text (stderr if non-empty, else stdout): "not found"/"no such" yields
`NotFound`, otherwise "not connected"/"no server running" yields `NotConnected`,
any other non-zero exit yields a generic `Command` error carrying the raw
message; a zero exit yields `Empty` for empty stdout and `Output` with the raw
text otherwise. -/
theorem C5_parse_output_classification (o : ProcOutput) :
    (o.statusSuccess = false →
      (TmuxCommand.errText o =
        (if o.stderr = "" then o.stdout else o.stderr)) ∧
      ((strContains (TmuxCommand.errText o) "not found" = true ∨
        strContains (TmuxCommand.errText o) "no such" = true) →
        TmuxCommand.parse_output o = .error (.NotFound (TmuxCommand.errText o))) ∧
      (strContains (TmuxCommand.errText o) "not found" = false →
       strContains (TmuxCommand.errText o) "no such" = false →
        (strContains (TmuxCommand.errText o) "not connected" = true ∨
         strContains (TmuxCommand.errText o) "no server running" = true) →
        TmuxCommand.parse_output o = .error .NotConnected) ∧
      (strContains (TmuxCommand.errText o) "not found" = false →
       strContains (TmuxCommand.errText o) "no such" = false →
       strContains (TmuxCommand.errText o) "not connected" = false →
       strContains (TmuxCommand.errText o) "no server running" = false →
        TmuxCommand.parse_output o = .error (.Command (TmuxCommand.errText o)))) ∧
    (o.statusSuccess = true →
      (o.stdout = "" →
        TmuxCommand.parse_output o =
          .ok { success := true, data := .Empty, error := none }) ∧
      (o.stdout ≠ "" →
        TmuxCommand.parse_output o =
          .ok { success := true, data := .Output o.stdout, error := none })) := by
  constructor
  · intro hfail
    refine ⟨?_, ?_, ?_, ?_⟩
    · simp [TmuxCommand.errText]
    · intro h
      simp [TmuxCommand.parse_output, hfail]
      rcases h with h | h <;> simp [h]
    · intro h1 h2 h3
      simp [TmuxCommand.parse_output, hfail, h1, h2]
      rcases h3 with h | h <;> simp [h]
    · intro h1 h2 h3 h4
      simp [TmuxCommand.parse_output, hfail, h1, h2, h3, h4]
  · intro hok
    constructor
    · intro hempty
      simp [TmuxCommand.parse_output, hok, hempty]
    · intro hne
      simp [TmuxCommand.parse_output, hok, hne]

/-- Witness for C5: a failed invocation whose stderr says "no such session"
classifies as `NotFound`, and a clean run with empty stdout yields `Empty`. -/
theorem C5_parse_output_classification_witness :
    TmuxCommand.parse_output ⟨false, "", "no such session: s7"⟩ =
      .error (.NotFound "no such session: s7") ∧
    TmuxCommand.parse_output ⟨true, "", ""⟩ =
      .ok { success := true, data := .Empty, error := none } := by
  constructor
  · exact ((C5_parse_output_classification ⟨false, "", "no such session: s7"⟩).1
      rfl).2.1 (Or.inr (by decide))
  · exact ((C5_parse_output_classification ⟨true, "", ""⟩).2 rfl).1 rfl

/-- Claim C6, counterexample: an input whose first closing tag precedes its
first opening tag carries a tool-call marker and no error marker, yet is not
classified `ToolCall` — the XML extraction slices an invalid range and the
parser panics (modelled by `none`). -/
theorem C6_toolcall_panic_counterexample :
    OutputParser.is_tool_call "</tool_call> x <tool_call>read" = true ∧
    OutputParser.is_error "</tool_call> x <tool_call>read" = false ∧
    OutputParser.parse_agent_output "</tool_call> x <tool_call>read" = none ∧
    OutputParser.classify "</tool_call> x <tool_call>read" ≠ some .ToolCall := by
  refine ⟨by decide, by decide, by decide, by decide⟩

/-- Claim C6, amended: `parse_agent_output` classifies by first-match
precedence — an error marker always wins (even in the presence of a tool-call
marker); with no error marker, a tool-call marker yields `ToolCall` provided
tool-call extraction does not panic; with neither, a completion marker yields
`Completion`; otherwise `Message`. -/
theorem C6_parser_precedence (out : String) :
    (OutputParser.is_error out = true →
      OutputParser.classify out = some .Error) ∧
    (OutputParser.is_error out = false →
      OutputParser.is_tool_call out = true →
      OutputParser.extract_tool_calls_from_output out ≠ none →
      OutputParser.classify out = some .ToolCall) ∧
    (OutputParser.is_error out = false →
      OutputParser.is_tool_call out = false →
      OutputParser.is_completion out = true →
      OutputParser.classify out = some .Completion) ∧
    (OutputParser.is_error out = false →
      OutputParser.is_tool_call out = false →
      OutputParser.is_completion out = false →
      OutputParser.classify out = some .Message) := by
  refine ⟨?_, ?_, ?_, ?_⟩
  · intro h1
    simp [OutputParser.classify, OutputParser.parse_agent_output, h1,
      OutputParser.parse_error]
  · intro h1 h2 h3
    rcases hx : OutputParser.extract_tool_calls_from_output out with _ | tcs
    · exact absurd hx h3
    · simp [OutputParser.classify, OutputParser.parse_agent_output, h1, h2,
        OutputParser.parse_tool_call, hx]
  · intro h1 h2 h3
    simp [OutputParser.classify, OutputParser.parse_agent_output, h1, h2, h3,
      OutputParser.parse_completion]
  · intro h1 h2 h3
    simp [OutputParser.classify, OutputParser.parse_agent_output, h1, h2, h3,
      OutputParser.parse_message]

/-- Witness for C6: an input containing both an error marker and a tool-call
marker is classified `Error` (the precedence highlighted by the claim). -/
theorem C6_parser_precedence_witness :
    OutputParser.is_error "error: boom\x0aRunning: read f" = true ∧
    OutputParser.is_tool_call "error: boom\x0aRunning: read f" = true ∧
    OutputParser.classify "error: boom\x0aRunning: read f" = some .Error :=
  ⟨by decide, by decide,
    (C6_parser_precedence "error: boom\x0aRunning: read f").1 (by decide)⟩

/-- Claim C7, counterexample: parsing `"<error>disk full</error>"` puts
"disk full" in the `content` field, not in `error` — the `error` field only
collects lines containing "Error:"/"error:", so here it is the empty string,
which does not contain "disk full". -/
theorem C7_error_field_counterexample :
    (OutputParser.parse_agent_output "<error>disk full</error>").map
      (fun r => r.error) = some (some "") ∧
    strContains "" "disk full" = false := by
  refine ⟨by decide, by decide⟩

/-- Claim C7, amended: parsing `"<error>disk full</error>"` yields
`success = false`, kind `Error`, `content = "disk full"` and `error = some ""`;
in general, for every input classified `Error`, the content is the input with
`<error>`/`</error>` tags removed and "Error:"/"error:" lines dropped (then
trimmed), and the `error` field is the newline-join of exactly the lines
containing "Error:" or "error:" — lines matching only the `<error>` tag marker
are not included. -/
theorem C7_error_extraction (out : String) :
    OutputParser.parse_agent_output "<error>disk full</error>" =
      some { success := false
             message_type := .Error
             content := "disk full"
             tool_calls := []
             error := some "" } ∧
    (OutputParser.is_error out = true →
      OutputParser.parse_agent_output out =
        some { success := false
               message_type := .Error
               content := OutputParser.strip_error_tags out
               tool_calls := []
               error := some (OutputParser.extract_error_message out) }) ∧
    OutputParser.extract_error_message out =
      joinNlTrim ((rustLines out).filter
        (fun line => strContains line "Error:" || strContains line "error:")) := by
  refine ⟨by decide, ?_, rfl⟩
  intro h1
  simp [OutputParser.parse_agent_output, h1, OutputParser.parse_error]

/-- Witness for C7: the general error-extraction clause applied to a line
containing "Error:". -/
theorem C7_error_extraction_witness :
    OutputParser.parse_agent_output "Error: nope" =
      some { success := false
             message_type := .Error
             content := ""
             tool_calls := []
             error := some "Error: nope" } :=
  (C7_error_extraction "Error: nope").2.1 (by decide)

/-- A single-character pattern is found whenever the character is present. -/
theorem substrSearch_single {c : Char} {l : List Char} (h : c ∈ l) :
    substrSearch [c] l = true := by
  induction l with
  | nil => cases h
  | cons x xs ih =>
    rcases List.mem_cons.mp h with h | h
    · subst h
      simp [substrSearch, isPrefixChars]
    · simp [substrSearch, ih h]

/-- The RFC 3339 model rejects any input starting with `[`. -/
theorem rfc3339ToEpoch_bracket (rest : List Char) :
    rfc3339ToEpoch ('[' :: rest) = none := by
  have hd : isDigitCh '[' = false := by decide
  have h4 : parse4Digits ('[' :: rest) = none := by
    simp [parse4Digits, parse2Digits, parseDigitCh, hd]
  unfold rfc3339ToEpoch
  rw [h4]
  rfl

/-- Any match of the bracketed ISO pattern starts with `[` and contains `-`. -/
theorem tryIsoBracket_shape {cs m : List Char} (h : tryIsoBracket cs = some m) :
    (∃ rest, m = '[' :: rest) ∧ '-' ∈ m := by
  unfold tryIsoBracket at h
  split at h
  · split at h
    · cases h
      exact ⟨⟨_, rfl⟩, by simp⟩
    · cases h
  · cases h

/-- `findFirst` only returns matches produced by the pattern scanner. -/
theorem findFirst_inv {P : List Char → Prop} {t : List Char → Option (List Char)}
    (ht : ∀ cs m, t cs = some m → P m) :
    ∀ cs m, findFirst t cs = some m → P m := by
  intro cs
  induction cs with
  | nil =>
    intro m h
    exact ht [] m (by simpa [findFirst] using h)
  | cons c cs ih =>
    intro m h
    unfold findFirst at h
    cases hx : t (c :: cs) with
    | some m2 =>
      rw [hx] at h
      cases h
      exact ht _ _ hx
    | none =>
      rw [hx] at h
      exact ih m h

/-- The first pattern of `parse_timestamp` never produces a value: its match
text is bracketed, so the RFC 3339 conversion of the match always fails. -/
theorem patternValue_iso_none (line : String) :
    OutputParser.patternValue tryIsoBracket line = none := by
  unfold OutputParser.patternValue
  cases h : findFirst tryIsoBracket line.data with
  | none => rfl
  | some m =>
    have hm := findFirst_inv (fun cs m h => tryIsoBracket_shape h) line.data m h
    obtain ⟨⟨rest, rfl⟩, hdash⟩ := hm
    have hcontains : strContains (String.mk ('[' :: rest)) "-" = true := by
      simpa [strContains] using substrSearch_single hdash
    have hrfc : parse_from_rfc3339 (String.mk ('[' :: rest) ++ "Z") = none := by
      show rfc3339ToEpoch (String.mk ('[' :: rest) ++ "Z").data = none
      have : (String.mk ('[' :: rest) ++ "Z").data = '[' :: (rest ++ ['Z']) := rfl
      rw [this, rfc3339ToEpoch_bracket]
    simp [OutputParser.applyTsMatch, hcontains, hrfc]

/-- Claim C8, counterexample: a line containing a bracketed 13-digit
millisecond timestamp yields no timestamp at all — no 13-digit pattern exists
in the source, and the 10-digit pattern requires a closing bracket right after
its ten digits. -/
theorem C8_millis_counterexample :
    OutputParser.parse_timestamp "[1695890000123]" = none := by
  decide

/-- Claim C8, amended: `parse_timestamp` tries, in source order, bracketed ISO
date-time (a branch that never yields a value, because the bracketed match text
is not valid RFC 3339), then bracketed 10-digit epoch seconds, then T-prefixed
10-digit epoch seconds, returning the first successful conversion; there is no
13-digit millisecond pattern, and a line matching no pattern yields `none`. -/
theorem C8_timestamp_patterns (line : String) :
    (OutputParser.parse_timestamp line =
      match OutputParser.patternValue tryBracket10 line with
      | some t => some t
      | none => OutputParser.patternValue tryT10 line) ∧
    OutputParser.parse_timestamp "[1695890000]" = some 1695890000 ∧
    OutputParser.parse_timestamp "log T1234567890 end" = some 1234567890 ∧
    OutputParser.parse_timestamp "no timestamp here" = none := by
  refine ⟨?_, by decide, by decide, by decide⟩
  unfold OutputParser.parse_timestamp
  rw [patternValue_iso_none]
  cases OutputParser.patternValue tryBracket10 line with
  | some t => rfl
  | none =>
    cases OutputParser.patternValue tryT10 line with
    | some t => rfl
    | none => rfl

/-- The directory after the retry loop is the pointwise rewrite. -/
theorem retryLoop_disk (fs : List DiskFile) :
    (MessageQueue.retryLoop fs).1 = fs.map MessageQueue.bumpFile := by
  induction fs with
  | nil => rfl
  | cons f fs ih =>
    cases h : MessageQueue.retriable? f <;>
      simp [MessageQueue.retryLoop, MessageQueue.bumpFile, h, ih]

/-- The messages re-appended by the retry loop, in scan order. -/
theorem retryLoop_app (fs : List DiskFile) :
    (MessageQueue.retryLoop fs).2.1 =
      fs.filterMap (fun f => (MessageQueue.retriable? f).map
        (fun q => { q with retries := q.retries + 1 })) := by
  induction fs with
  | nil => rfl
  | cons f fs ih =>
    cases h : MessageQueue.retriable? f <;>
      simp [MessageQueue.retryLoop, h, ih]

/-- The retry count equals the number of retriable files. -/
theorem retryLoop_count (fs : List DiskFile) :
    (MessageQueue.retryLoop fs).2.2 =
      (fs.filter (fun f => (MessageQueue.retriable? f).isSome)).length := by
  induction fs with
  | nil => rfl
  | cons f fs ih =>
    cases h : MessageQueue.retriable? f <;>
      simp [MessageQueue.retryLoop, h, ih]

/-- A file the retry test rejects is rewritten to itself. -/
theorem bumpFile_id {f : DiskFile} (h : MessageQueue.retriable? f = none) :
    MessageQueue.bumpFile f = f := by
  simp [MessageQueue.bumpFile, h]

/-- A non-retriable file survives `retry_failed` unchanged. -/
theorem mem_retry_disk_of_not_retriable {st : QueueState} {f : DiskFile}
    (hf : f ∈ st.disk) (h : MessageQueue.retriable? f = none) :
    f ∈ (MessageQueue.retry_failed st).1.disk := by
  have heq : (MessageQueue.retry_failed st).1.disk = st.disk.map MessageQueue.bumpFile :=
    retryLoop_disk st.disk
  rw [heq]
  have hmem := List.mem_map_of_mem MessageQueue.bumpFile hf
  rwa [bumpFile_id h] at hmem

/-- A non-retriable file survives every number of `retry_failed` sweeps. -/
theorem retryIter_keeps_not_retriable {f : DiskFile}
    (h : MessageQueue.retriable? f = none) :
    ∀ (k : Nat) (st : QueueState), f ∈ st.disk → f ∈ (MessageQueue.retryIter k st).disk := by
  intro k
  induction k with
  | zero => intro st hf; exact hf
  | succ k ih => intro st hf; exact ih _ (mem_retry_disk_of_not_retriable hf h)

/-- A parsed file at the retry bound is rejected by the retry test. -/
theorem retriable_none_of_retries3 {f : DiskFile} {q : QueuedMessage}
    (hp : MessageQueue.parsedMsg f = some q) (h3 : 3 ≤ q.retries) :
    MessageQueue.retriable? f = none := by
  unfold MessageQueue.parsedMsg at hp
  unfold MessageQueue.retriable?
  cases hm : isMsgFile f with
  | false => simp [hm] at hp
  | true =>
    rw [hm] at hp
    cases hd : f.data with
    | msg q2 =>
      rw [hd] at hp
      simp at hp
      subst hp
      simp [hm, hd, Nat.not_lt.mpr h3]
    | other raw => simp [hd] at hp

/-- A file without the `msg` extension is rejected by the retry test. -/
theorem retriable_none_of_not_msg {f : DiskFile} (hm : isMsgFile f = false) :
    MessageQueue.retriable? f = none := by
  simp [MessageQueue.retriable?, hm]

/-- A malformed `.msg` file is rejected by the retry test. -/
theorem retriable_none_of_other {f : DiskFile} {raw : String}
    (hd : f.data = .other raw) :
    MessageQueue.retriable? f = none := by
  cases hm : isMsgFile f <;> simp [MessageQueue.retriable?, hm, hd]

/-- A parsed file at the retry bound is counted as failed, not queued. -/
theorem mem_failed_not_queued {st : QueueState} {f : DiskFile} {q : QueuedMessage}
    (hf : f ∈ st.disk) (hp : MessageQueue.parsedMsg f = some q) (h3 : 3 ≤ q.retries) :
    f ∈ MessageQueue.failedFiles st ∧ f ∉ MessageQueue.queuedFiles st := by
  constructor
  · exact List.mem_filter.mpr ⟨hf, by simp [hp, h3]⟩
  · intro hmem
    have hq := (List.mem_filter.mp hmem).2
    simp [hp] at hq
    exact absurd hq (Nat.not_lt.mpr h3)

/-- Claim C3: `retry_failed` scans every directory entry; each parsed `.msg`
file with `retries < 3` is rewritten with `retries` incremented by exactly one
and its message re-appended to the in-memory queue; files at `retries = 3` are
left unmodified and uncounted; the returned count is the number of files below
the bound; a file at the bound is counted in `stats` as failed rather than
queued, and is excluded from every subsequent `retry_failed` count. -/
theorem C3_retry_bound (st : QueueState) :
    ((MessageQueue.retry_failed st).2 =
      (st.disk.filter (fun f => (MessageQueue.retriable? f).isSome)).length) ∧
    ((MessageQueue.retry_failed st).1.disk = st.disk.map MessageQueue.bumpFile) ∧
    (∀ f : DiskFile, ∀ q : QueuedMessage, MessageQueue.retriable? f = some q →
      MessageQueue.bumpFile f =
        { name := f.name, data := .msg { q with retries := q.retries + 1 } }) ∧
    (∀ f : DiskFile, MessageQueue.retriable? f = none → MessageQueue.bumpFile f = f) ∧
    ((MessageQueue.retry_failed st).1.memq =
      st.memq ++ st.disk.filterMap (fun f => (MessageQueue.retriable? f).map
        (fun q => { q with retries := q.retries + 1 }))) ∧
    (∀ f ∈ st.disk, ∀ q : QueuedMessage,
      MessageQueue.parsedMsg f = some q → q.retries = 3 →
      f ∈ MessageQueue.failedFiles st ∧ f ∉ MessageQueue.queuedFiles st ∧
      (∀ k : Nat, f ∈ (MessageQueue.retryIter k st).disk ∧
        f ∉ (MessageQueue.retryIter k st).disk.filter
          (fun g => (MessageQueue.retriable? g).isSome))) := by
  refine ⟨retryLoop_count st.disk, retryLoop_disk st.disk, ?_, ?_,
    congrArg (fun l => st.memq ++ l) (retryLoop_app st.disk), ?_⟩
  · intro f q h
    simp [MessageQueue.bumpFile, h]
  · intro f h
    exact bumpFile_id h
  · intro f hf q hp h3
    have h3le : 3 ≤ q.retries := h3.ge
    have hnone := retriable_none_of_retries3 hp h3le
    refine ⟨(mem_failed_not_queued hf hp h3le).1, (mem_failed_not_queued hf hp h3le).2, ?_⟩
    intro k
    refine ⟨retryIter_keeps_not_retriable hnone k st hf, ?_⟩
    intro hmem
    have := (List.mem_filter.mp hmem).2
    simp [hnone] at this

/-- Witness for C3: on the example state the count is 1 (only the
`retries = 1` file), and the file at the bound survives two sweeps without
ever being counted. -/
theorem C3_retry_bound_witness :
    (MessageQueue.retry_failed stExample).2 = 1 ∧
    fileB ∈ (MessageQueue.retryIter 2 stExample).disk ∧
    fileB ∉ (MessageQueue.retryIter 2 stExample).disk.filter
      (fun g => (MessageQueue.retriable? g).isSome) := by
  have h := C3_retry_bound stExample
  have hB := h.2.2.2.2.2 fileB (by decide) qmsg3 (by decide) (by decide)
  exact ⟨h.1.trans (by decide), (hB.2.2 2).1, (hB.2.2 2).2⟩

/-- A fresh write is present in the directory. -/
theorem mem_writeFile (disk : List DiskFile) (name : String) (d : FileData) :
    ({ name := name, data := d } : DiskFile) ∈ writeFile disk name d := by
  unfold writeFile
  split
  · next hany =>
    obtain ⟨f, hf, hfname⟩ := List.any_eq_true.mp hany
    refine List.mem_map.mpr ⟨f, hf, ?_⟩
    simp [hfname]
  · exact List.mem_append_right _ (List.mem_singleton.mpr rfl)

/-- Claim C4: enqueue on an empty queue followed by dequeue returns the
wrapped message with `retries = 0`; the file written by enqueue is on disk and
dequeue does not remove it (only the pending count drops); enqueue appends at
the back and dequeue takes the front (FIFO). -/
theorem C4_enqueue_dequeue (st : QueueState) (m : Message) (now : Nat)
    (h : st.memq = []) :
    ((MessageQueue.dequeue (MessageQueue.enqueue_message st m now)).1 =
      some { message := m, queued_at := now, retries := 0 }) ∧
    ((MessageQueue.dequeue (MessageQueue.enqueue_message st m now)).1.map
      (fun q => q.message.id) = some m.id) ∧
    ((MessageQueue.dequeue (MessageQueue.enqueue_message st m now)).1.map
      (fun q => q.retries) = some 0) ∧
    (({ name := MessageQueue.message_file m.pane_id m.id,
        data := .msg { message := m, queued_at := now, retries := 0 } } : DiskFile) ∈
      (MessageQueue.enqueue_message st m now).disk) ∧
    ((MessageQueue.dequeue (MessageQueue.enqueue_message st m now)).2.disk =
      (MessageQueue.enqueue_message st m now).disk) ∧
    ((MessageQueue.stats (MessageQueue.enqueue_message st m now)).pending = 1) ∧
    ((MessageQueue.stats
      (MessageQueue.dequeue (MessageQueue.enqueue_message st m now)).2).pending = 0) ∧
    (∀ (st2 : QueueState) (m2 : Message) (now2 : Nat),
      (MessageQueue.enqueue_message st2 m2 now2).memq =
        st2.memq ++ [{ message := m2, queued_at := now2, retries := 0 }]) ∧
    (∀ st2 : QueueState, (MessageQueue.dequeue st2).1 = st2.memq.head?) := by
  refine ⟨?_, ?_, ?_, ?_, rfl, ?_, ?_, ?_, ?_⟩
  · simp [MessageQueue.dequeue, MessageQueue.enqueue_message, h]
  · simp [MessageQueue.dequeue, MessageQueue.enqueue_message, h]
  · simp [MessageQueue.dequeue, MessageQueue.enqueue_message, h]
  · exact mem_writeFile st.disk _ _
  · simp [MessageQueue.stats, MessageQueue.enqueue_message, h]
  · simp [MessageQueue.stats, MessageQueue.dequeue, MessageQueue.enqueue_message, h]
  · intro st2 m2 now2
    rfl
  · intro st2
    rfl

/-- Witness for C4: a concrete enqueue/dequeue round trip on the empty state. -/
theorem C4_enqueue_dequeue_witness :
    ((MessageQueue.dequeue (MessageQueue.enqueue_message
        { memq := [], disk := [] }
        { id := "m1", pane_id := "p:0.0", content := "hello", timestamp := 7 } 42)).1 =
      some { message := { id := "m1", pane_id := "p:0.0", content := "hello", timestamp := 7 }
             queued_at := 42, retries := 0 }) ∧
    (({ name := "p:0.0-m1.msg",
        data := .msg { message := { id := "m1", pane_id := "p:0.0", content := "hello",
                                    timestamp := 7 }
                       queued_at := 42, retries := 0 } } : DiskFile) ∈
      (MessageQueue.enqueue_message { memq := [], disk := [] }
        { id := "m1", pane_id := "p:0.0", content := "hello", timestamp := 7 } 42).disk) := by
  have h := C4_enqueue_dequeue { memq := [], disk := [] }
    { id := "m1", pane_id := "p:0.0", content := "hello", timestamp := 7 } 42 rfl
  exact ⟨h.1, h.2.2.2.1⟩

/-- After `clear`, no `.msg` entry remains, so `stats` counts nothing. -/
theorem queuedFiles_clear (st : QueueState) :
    MessageQueue.queuedFiles (MessageQueue.clear st) = [] := by
  apply List.filter_eq_nil_iff.mpr
  intro f hf
  have hm : isMsgFile f = false := by
    have := (List.mem_filter.mp hf).2
    simpa using this
  simp [MessageQueue.parsedMsg, hm]

/-- After `clear`, nothing is counted as failed either. -/
theorem failedFiles_clear (st : QueueState) :
    MessageQueue.failedFiles (MessageQueue.clear st) = [] := by
  apply List.filter_eq_nil_iff.mpr
  intro f hf
  have hm : isMsgFile f = false := by
    have := (List.mem_filter.mp hf).2
    simpa using this
  simp [MessageQueue.parsedMsg, hm]

/-- Claim C9: `clear` empties the in-memory queue and removes every `.msg`
entry, so `stats` reads `{0, 0, 0}`; a second `clear` succeeds, changes
nothing, and `stats` reads `{0, 0, 0}` again. -/
theorem C9_clear_idempotent (st : QueueState) :
    MessageQueue.stats (MessageQueue.clear st) = { pending := 0, queued := 0, failed := 0 } ∧
    MessageQueue.stats (MessageQueue.clear (MessageQueue.clear st)) =
      { pending := 0, queued := 0, failed := 0 } ∧
    MessageQueue.clear (MessageQueue.clear st) = MessageQueue.clear st := by
  have hmemq : ∀ st2 : QueueState, (MessageQueue.clear st2).memq = [] := fun _ => rfl
  refine ⟨?_, ?_, ?_⟩
  · simp [MessageQueue.stats, queuedFiles_clear, failedFiles_clear, hmemq]
  · simp [MessageQueue.stats, queuedFiles_clear, failedFiles_clear, hmemq]
  · simp [MessageQueue.clear, List.filter_filter]

/-- Claim C10: `clear` deletes exactly the entries whose extension is `msg`
and leaves every other entry in place; `retry_failed` and `stats` ignore
non-`.msg` entries entirely; a `.msg` entry whose contents fail to parse is
silently ignored — never counted as queued or failed, never retried, never
counted. -/
theorem C10_msg_only_frame (st : QueueState) (f : DiskFile) :
    ((MessageQueue.clear st).disk = st.disk.filter (fun g => !isMsgFile g)) ∧
    (f ∈ st.disk → isMsgFile f = false →
      f ∈ (MessageQueue.clear st).disk ∧
      f ∈ (MessageQueue.retry_failed st).1.disk ∧
      f ∉ MessageQueue.queuedFiles st ∧
      f ∉ MessageQueue.failedFiles st ∧
      f ∉ st.disk.filter (fun g => (MessageQueue.retriable? g).isSome)) ∧
    (f ∈ st.disk → isMsgFile f = true → f ∉ (MessageQueue.clear st).disk) ∧
    (f ∈ st.disk → isMsgFile f = true → ∀ raw : String, f.data = .other raw →
      f ∈ (MessageQueue.retry_failed st).1.disk ∧
      f ∉ MessageQueue.queuedFiles st ∧
      f ∉ MessageQueue.failedFiles st ∧
      f ∉ st.disk.filter (fun g => (MessageQueue.retriable? g).isSome)) := by
  refine ⟨rfl, ?_, ?_, ?_⟩
  · intro hf hm
    have hnone := retriable_none_of_not_msg hm
    refine ⟨List.mem_filter.mpr ⟨hf, by simp [hm]⟩,
      mem_retry_disk_of_not_retriable hf hnone, ?_, ?_, ?_⟩
    · intro hmem
      have := (List.mem_filter.mp hmem).2
      simp [MessageQueue.parsedMsg, hm] at this
    · intro hmem
      have := (List.mem_filter.mp hmem).2
      simp [MessageQueue.parsedMsg, hm] at this
    · intro hmem
      have := (List.mem_filter.mp hmem).2
      simp [hnone] at this
  · intro hf hm hmem
    have := (List.mem_filter.mp hmem).2
    simp [hm] at this
  · intro hf hm raw hd
    have hnone := retriable_none_of_other hd
    refine ⟨mem_retry_disk_of_not_retriable hf hnone, ?_, ?_, ?_⟩
    · intro hmem
      have := (List.mem_filter.mp hmem).2
      simp [MessageQueue.parsedMsg, hd] at this
    · intro hmem
      have := (List.mem_filter.mp hmem).2
      simp [MessageQueue.parsedMsg, hd] at this
    · intro hmem
      have := (List.mem_filter.mp hmem).2
      simp [hnone] at this

/-- Witness for C10: on the example state the non-queue file survives a retry
sweep and a `clear`, and the malformed `.msg` file is neither queued nor
failed. -/
theorem C10_msg_only_frame_witness :
    fileC ∈ (MessageQueue.retry_failed stExample).1.disk ∧
    fileC ∈ (MessageQueue.clear stExample).disk ∧
    fileD ∉ MessageQueue.failedFiles stExample ∧
    fileD ∉ MessageQueue.queuedFiles stExample := by
  have hC := (C10_msg_only_frame stExample fileC).2.1 (by decide) (by decide)
  have hD := (C10_msg_only_frame stExample fileD).2.2.2 (by decide) (by decide)
    "not json" (by decide)
  exact ⟨hC.2.1, hC.1, hD.2.2.1, hD.2.1⟩

/-- Claim C1: evaluation of the fallback path at the failing input. With no
HTTP client, mode `Auto`, and a Session Identity Map already holding
`r1 -> sessA`, the delivery trace contains no key-send injection and no map
lookup: the code searches the live sessions (despite the cached mapping),
overwrites the mapping with the found pane id (not a session name), and
returns `Ok(false)`; a second delivery for the same remote id searches again
instead of using the cache. `send_message` behaves identically. -/
theorem C1_fallback_code_eval :
    OpenCodeSender.send_prompt { httpOk := false, liveSessions := [("r1", "%1")] }
        { opencodeClient := none, mappings := [("r1", "sessA")] } "r1" .Auto "hi" =
      (.ok false, { opencodeClient := none, mappings := [("r1", "%1")] },
        [.notice, .searchSessions "r1", .mapInsert "r1" "%1"]) ∧
    OpenCodeSender.send_prompt { httpOk := false, liveSessions := [("r1", "%1")] }
        { opencodeClient := none, mappings := [("r1", "%1")] } "r1" .Auto "hi" =
      (.ok false, { opencodeClient := none, mappings := [("r1", "%1")] },
        [.notice, .searchSessions "r1", .mapInsert "r1" "%1"]) ∧
    OpenCodeSender.send_message { httpOk := false, liveSessions := [("r1", "%1")] }
        { opencodeClient := none, mappings := [("r1", "sessA")] } "r1" .Auto "hi" =
      (.ok false, { opencodeClient := none, mappings := [("r1", "%1")] },
        [.notice, .searchSessions "r1", .mapInsert "r1" "%1"]) :=
  ⟨rfl, rfl, rfl⟩

/-- Claim C2, counterexample: under `Opencode` (AgentOnly) mode with a
configured client whose call fails, `send_prompt` and `send_message` return
`Ok(false)` — not an error — and silently run the same fallback tail
(search plus mapping insert) with no console notice. -/
theorem C2_agentonly_counterexample :
    OpenCodeSender.send_prompt { httpOk := false, liveSessions := [("r1", "%1")] }
        { opencodeClient := some (), mappings := [] } "r1" .Opencode "hi" =
      (.ok false, { opencodeClient := some (), mappings := [("r1", "%1")] },
        [.httpPrompt "r1" "hi", .searchSessions "r1", .mapInsert "r1" "%1"]) ∧
    OpenCodeSender.send_message { httpOk := false, liveSessions := [("r1", "%1")] }
        { opencodeClient := some (), mappings := [] } "r1" .Opencode "hi" =
      (.ok false, { opencodeClient := some (), mappings := [("r1", "%1")] },
        [.httpMessage "r1" "hi", .searchSessions "r1", .mapInsert "r1" "%1"]) :=
  ⟨rfl, rfl⟩

/-- Claim C2, amended: under `Opencode` (AgentOnly) mode a failed agent call
is not reported as an error: both routines return `Ok(false)` and run exactly
the same fallback tail as `Auto` mode — same resulting state, same actions —
with the console notice as the only `Auto`-specific difference. -/
theorem C2_agentonly_no_error (env : SenderEnv) (st : SenderState)
    (sid text : String) (hc : st.opencodeClient.isSome = true)
    (hh : env.httpOk = false) :
    OpenCodeSender.send_prompt env st sid .Opencode text =
      (.ok false, (fallbackTail env st sid).1,
        .httpPrompt sid text :: (fallbackTail env st sid).2) ∧
    OpenCodeSender.send_prompt env st sid .Auto text =
      (.ok false, (fallbackTail env st sid).1,
        .httpPrompt sid text :: .notice :: (fallbackTail env st sid).2) ∧
    OpenCodeSender.send_message env st sid .Opencode text =
      (.ok false, (fallbackTail env st sid).1,
        .httpMessage sid text :: (fallbackTail env st sid).2) ∧
    OpenCodeSender.send_message env st sid .Auto text =
      (.ok false, (fallbackTail env st sid).1,
        .httpMessage sid text :: .notice :: (fallbackTail env st sid).2) := by
  refine ⟨?_, ?_, ?_, ?_⟩ <;>
    simp [OpenCodeSender.send_prompt, OpenCodeSender.send_message, hc, hh]

/-- Witness for C2: the amended statement applied at a concrete failed-call
environment under `Opencode` mode. -/
theorem C2_agentonly_no_error_witness :
    OpenCodeSender.send_prompt { httpOk := false, liveSessions := [("r2", "%7")] }
        { opencodeClient := some (), mappings := [] } "r2" .Opencode "ping" =
      (.ok false,
        (fallbackTail { httpOk := false, liveSessions := [("r2", "%7")] }
          { opencodeClient := some (), mappings := [] } "r2").1,
        .httpPrompt "r2" "ping" ::
          (fallbackTail { httpOk := false, liveSessions := [("r2", "%7")] }
            { opencodeClient := some (), mappings := [] } "r2").2) :=
  (C2_agentonly_no_error { httpOk := false, liveSessions := [("r2", "%7")] }
    { opencodeClient := some (), mappings := [] } "r2" "ping" rfl rfl).1
